import Mathlib

/-!
Shallow embedding of `src/media_input.cpp` from the bino 3D video player
(the multi-source stream aggregation/synchronization layer), together with
proofs about its behaviour.

The `media_input` class of the source owns an ordered vector of external
`media_object` sources and presents flattened, globally indexed video and
audio stream tables, stereo-pair detection, a paired frame-read protocol,
seek and lifecycle operations.  `media_object`, `video_frame` and
`audio_blob` are declared outside the translated file (media_object.h,
media_data.h); their interface is modelled from the specification where
noted.  Machine integers (`int`, `int64_t`) are modelled as `Int`; all
claim-relevant arithmetic stays far from the 64-bit boundaries, with the
`INT64_MAX` / `INT64_MIN` sentinels made explicit.
-/

/-- INT64_MAX, the initial accumulator of the duration minimisation loop in
`media_input::open`. -/
def int64_max : Int := 2 ^ 63 - 1

/-- INT64_MIN, used by `media_object::tell` as the "unknown position" sentinel
(checked in `media_input::set_stereo_layout`). -/
def int64_min : Int := -(2 ^ 63)

/-- Closed set of stereo layouts (`video_frame::stereo_layout_t` in
media_data.h, outside src/; the set of constructors is taken from the
specification and from the uses in `media_input.cpp`). -/
inductive stereo_layout_t where
  | mono
  | separate
  | left_right
  | left_right_half
  | top_bottom
  | top_bottom_half
  | even_odd_rows
deriving DecidableEq

/-- Modelled from the spec: `video_frame` (media_data.h is outside src/):
width, height, pre-crop raw dimensions, aspect ratio (a float in the source,
modelled as `Rat`; the source compares aspect ratios with `<= && >=`, which
is exact equality), pixel layout / colour space / value range / chroma
location enums (modelled as `Nat`), the stereo layout and swap flag,
per-plane data pointers and line sizes for 2 views x 3 planes (pointers
modelled as `Int`), a presentation timestamp, a validity flag, and the
`format_info()` string. -/
structure video_frame where
  width : Int
  height : Int
  raw_width : Int
  raw_height : Int
  aspect_ratio : Rat
  layout : Nat
  color_space : Nat
  value_range : Nat
  chroma_location : Nat
  stereo_layout : stereo_layout_t
  stereo_layout_swap : Bool
  data : Fin 2 → Fin 3 → Int
  line_size : Fin 2 → Fin 3 → Int
  presentation_time : Int
  valid : Bool
  format_info : String
deriving DecidableEq

/-- Modelled from the spec: the default-constructed `video_frame()` used as
the invalid-frame sentinel by `media_input::finish_video_frame_read`. -/
def default_video_frame : video_frame :=
  { width := -1, height := -1, raw_width := -1, raw_height := -1,
    aspect_ratio := 0, layout := 0, color_space := 0, value_range := 0,
    chroma_location := 0, stereo_layout := stereo_layout_t.mono,
    stereo_layout_swap := false,
    data := fun _ _ => 0, line_size := fun _ _ => 0,
    presentation_time := 0, valid := false, format_info := "" }

/-- Modelled from the spec: `video_frame::is_valid()` (media_data.h is
outside src/), the validity test used on the result of each sub-read. -/
def video_frame.is_valid (f : video_frame) : Bool := f.valid

/-- Modelled from the spec: `audio_blob` (media_data.h is outside src/):
channel layout, sample format, sample rate, validity flag, `format_info()`
string. -/
structure audio_blob where
  channels : Int
  sample_format : Nat
  rate : Int
  valid : Bool
  format_info : String
deriving DecidableEq

/-- Modelled from the spec: the default-constructed `audio_blob()`. -/
def default_audio_blob : audio_blob :=
  { channels := 0, sample_format := 0, rate := 0, valid := false, format_info := "" }

/-- Immutable per-stream data of one video stream of a `media_object`:
its format template, duration, and frame rate fraction. -/
structure video_stream_info where
  template : video_frame
  duration : Int
  rate_num : Int
  rate_den : Int
deriving DecidableEq

/-- Immutable per-stream data of one audio stream of a `media_object`. -/
structure audio_stream_info where
  template : audio_blob
  duration : Int
deriving DecidableEq

/-- Modelled from the spec: the external `media_object` capability
(media_object.h / media_object.cpp are outside src/): a url, per-stream
video/audio data, tag name/value pairs, one activation flag per local
stream, and a current read position (`int64_min` = unknown). -/
structure media_object where
  url : String
  vstreams : List video_stream_info
  astreams : List audio_stream_info
  tag_list : List (String × String)
  video_active : List Bool
  audio_active : List Bool
  position : Int
deriving DecidableEq

/-- Modelled from the spec: a default-constructed (unopened) `media_object`,
as produced by `std::vector<media_object>::resize`. -/
def default_media_object : media_object :=
  { url := "", vstreams := [], astreams := [], tag_list := [],
    video_active := [], audio_active := [], position := int64_min }

def media_object.video_streams (m : media_object) : Nat := m.vstreams.length

def media_object.audio_streams (m : media_object) : Nat := m.astreams.length

/-- Modelled from the spec: `media_object::video_frame_template(j)`. -/
def media_object.video_frame_template (m : media_object) (j : Nat) : video_frame :=
  (m.vstreams.getD j { template := default_video_frame, duration := 0, rate_num := 0, rate_den := 0 }).template

/-- Modelled from the spec: `media_object::audio_blob_template(j)`. -/
def media_object.audio_blob_template (m : media_object) (j : Nat) : audio_blob :=
  (m.astreams.getD j { template := default_audio_blob, duration := 0 }).template

/-- Modelled from the spec: `media_object::video_duration(j)`. -/
def media_object.video_duration (m : media_object) (j : Nat) : Int :=
  (m.vstreams.getD j { template := default_video_frame, duration := 0, rate_num := 0, rate_den := 0 }).duration

/-- Modelled from the spec: `media_object::audio_duration(j)`. -/
def media_object.audio_duration (m : media_object) (j : Nat) : Int :=
  (m.astreams.getD j { template := default_audio_blob, duration := 0 }).duration

/-- Modelled from the spec: `media_object::video_frame_rate_numerator(j)`. -/
def media_object.video_frame_rate_numerator (m : media_object) (j : Nat) : Int :=
  (m.vstreams.getD j { template := default_video_frame, duration := 0, rate_num := 0, rate_den := 0 }).rate_num

/-- Modelled from the spec: `media_object::video_frame_rate_denominator(j)`. -/
def media_object.video_frame_rate_denominator (m : media_object) (j : Nat) : Int :=
  (m.vstreams.getD j { template := default_video_frame, duration := 0, rate_num := 0, rate_den := 0 }).rate_den

def media_object.tags (m : media_object) : Nat := m.tag_list.length

def media_object.tag_name (m : media_object) (j : Nat) : String :=
  (m.tag_list.getD j ("", "")).1

def media_object.tag_value (m : media_object) (j : Nat) : String :=
  (m.tag_list.getD j ("", "")).2

/-- Modelled from the spec: `media_object::video_stream_set_active(j, b)`
(an activation flag per local stream; out-of-range `j` is asserted away in
the source, `List.set` makes it a no-op here). -/
def media_object.video_stream_set_active (m : media_object) (j : Nat) (b : Bool) : media_object :=
  { m with video_active := m.video_active.set j b }

/-- Modelled from the spec: `media_object::audio_stream_set_active(j, b)`. -/
def media_object.audio_stream_set_active (m : media_object) (j : Nat) (b : Bool) : media_object :=
  { m with audio_active := m.audio_active.set j b }

/-- Modelled from the spec: `media_object::seek(pos)` moves the source's
read position. -/
def media_object.seek (m : media_object) (pos : Int) : media_object :=
  { m with position := pos }

/-- Modelled from the spec: `media_object::tell()`, `int64_min` meaning
"unknown". -/
def media_object.tell (m : media_object) : Int := m.position

/-- The state of a `media_input` object; field names follow the members of
the C++ class (`_media_objects`, `_id`, ..., `_video_frame` is `vframe` and
`_audio_blob` is `ablob` to avoid clashing with the type names). -/
structure media_input where
  media_objects : List media_object
  id : String
  tag_names : List String
  tag_values : List String
  video_stream_names : List String
  audio_stream_names : List String
  active_video_stream : Int
  active_audio_stream : Int
  initial_skip : Int
  duration : Int
  vframe : video_frame
  ablob : audio_blob
  supports_stereo_layout_separate : Bool
deriving DecidableEq

/-- The state produced by the `media_input` constructor.  The constructor
initialises only the two active-stream indices, `_initial_skip` and
`_duration`; the remaining members are default-constructed, and
`_supports_stereo_layout_separate` is left uninitialised by the constructor
(it is assigned in `open` before any use); it is modelled as `false` here. -/
def media_input.init : media_input :=
  { media_objects := [], id := "", tag_names := [], tag_values := [],
    video_stream_names := [], audio_stream_names := [],
    active_video_stream := -1, active_audio_stream := -1,
    initial_skip := 0, duration := -1,
    vframe := default_video_frame, ablob := default_audio_blob,
    supports_stereo_layout_separate := false }

/-- Modelled from the spec: `media_input::video_streams()` (declared in
media_input.h, outside src/) — the flattened count, the sum of the
per-source video stream counts. -/
def media_input.video_streams (inp : media_input) : Nat :=
  (inp.media_objects.map media_object.video_streams).sum

/-- Modelled from the spec: `media_input::audio_streams()`. -/
def media_input.audio_streams (inp : media_input) : Nat :=
  (inp.media_objects.map media_object.audio_streams).sum

/-- `media_input::tags()` (src lines 261-264): the aggregated tag count. -/
def media_input.tags (inp : media_input) : Nat := inp.tag_names.length

/-- The scan-and-subtract walk shared by `media_input::get_video_stream` and
`media_input::get_audio_stream` (src lines 42-74): walk the per-source
stream counts, subtracting each count that does not contain the requested
index.  Stream indices are `int`s asserted in range in the source; they are
modelled as `Nat`, and the out-of-range case (where the source loop leaves
its outputs unassigned) is `none`. -/
def resolve_walk : List Nat → Nat → Option (Nat × Nat)
  | [], _ => none
  | c :: rest, stream =>
    if c < stream + 1 then
      (resolve_walk rest (stream - c)).map (fun p => (p.1 + 1, p.2))
    else
      some (0, stream)

/-- `media_input::get_video_stream(stream, &o, &s)` (src lines 42-57). -/
def media_input.get_video_stream (inp : media_input) (stream : Nat) : Option (Nat × Nat) :=
  resolve_walk (inp.media_objects.map media_object.video_streams) stream

/-- `media_input::get_audio_stream(stream, &o, &s)` (src lines 59-74). -/
def media_input.get_audio_stream (inp : media_input) (stream : Nat) : Option (Nat × Nat) :=
  resolve_walk (inp.media_objects.map media_object.audio_streams) stream

/-- The canonical enumeration of all (source index, local stream index)
pairs in source order, local indices in order within each source. -/
def stream_pairs : List Nat → List (Nat × Nat)
  | [] => []
  | c :: rest =>
    (List.range c).map (fun j => (0, j)) ++ (stream_pairs rest).map (fun p => (p.1 + 1, p.2))

/-- The basename helper of media_input.cpp (src lines 77-94): the substring
after the last `/` or `\` of the url, or the whole url if neither occurs
(the source's min/max dance over `find_last_of` results computes exactly
the last position at which either character occurs). -/
def basename (url : String) : String :=
  let cs := url.data
  let idxs := (List.range cs.length).filter
    (fun i => cs.getD i ' ' = '/' ∨ cs.getD i ' ' = '\\')
  match idxs.getLast? with
  | none => url
  | some i => String.mk (cs.drop (i + 1))

/-- Construction of `_id` in `media_input::open` (src lines 107-113): the
basenames of all source urls joined with `/`.  The source indexes
`_media_objects[0]` unconditionally (`open` asserts a non-empty url list);
the empty case is given the value `""`. -/
def build_id : List media_object → String
  | [] => ""
  | m :: rest => rest.foldl (fun acc m2 => acc ++ "/" ++ basename m2.url) (basename m.url)

/-- The per-source ordinal tag/stream-name prefix of `media_input::open`:
empty when there is a single source, otherwise `"<i+1> - "`. -/
def ordinal_pfx (n : Nat) (i : Nat) : String :=
  if n = 1 then "" else toString (i + 1) ++ " - "

/-- Tag-name aggregation of `media_input::open` (src lines 116-124),
walking sources from index `i` of `n`. -/
def build_tag_names_from (n : Nat) (i : Nat) : List media_object → List String
  | [] => []
  | m :: rest =>
    m.tag_list.map (fun t => ordinal_pfx n i ++ t.1) ++ build_tag_names_from n (i + 1) rest

def build_tag_names (objs : List media_object) : List String :=
  build_tag_names_from objs.length 0 objs

/-- Tag-value aggregation of `media_input::open` (src lines 116-124). -/
def build_tag_values_from (n : Nat) (i : Nat) : List media_object → List String
  | [] => []
  | m :: rest =>
    m.tag_list.map (fun t => ordinal_pfx n i ++ t.2) ++ build_tag_values_from n (i + 1) rest

def build_tag_values (objs : List media_object) : List String :=
  build_tag_values_from objs.length 0 objs

/-- The intra-source ordinal used in stream names: empty when the source has
a single stream of that kind, otherwise `"<j+1> - "`. -/
def intra_pfx (cnt : Nat) (j : Nat) : String :=
  if cnt = 1 then "" else toString (j + 1) ++ " - "

/-- Video stream-name aggregation of `media_input::open` (src lines 127-136). -/
def build_video_stream_names_from (n : Nat) (i : Nat) : List media_object → List String
  | [] => []
  | m :: rest =>
    (List.range m.video_streams).map (fun j =>
        ordinal_pfx n i ++ intra_pfx m.video_streams j ++ (m.video_frame_template j).format_info)
      ++ build_video_stream_names_from n (i + 1) rest

def build_video_stream_names (objs : List media_object) : List String :=
  build_video_stream_names_from objs.length 0 objs

/-- Audio stream-name aggregation of `media_input::open` (src lines 137-146). -/
def build_audio_stream_names_from (n : Nat) (i : Nat) : List media_object → List String
  | [] => []
  | m :: rest =>
    (List.range m.audio_streams).map (fun j =>
        ordinal_pfx n i ++ intra_pfx m.audio_streams j ++ (m.audio_blob_template j).format_info)
      ++ build_audio_stream_names_from n (i + 1) rest

def build_audio_stream_names (objs : List media_object) : List String :=
  build_audio_stream_names_from objs.length 0 objs

/-- One step of the duration loop of `media_input::open` (src lines 155-157,
161-165): `if (d < _duration) _duration = d`. -/
def min_step (d x : Int) : Int := if x < d then x else d

/-- The duration computation of `media_input::open` (src lines 148-168):
starting from INT64_MAX, fold `min_step` over every video stream duration
and then every audio stream duration of every source in order. -/
def duration_fold (objs : List media_object) : Int :=
  objs.foldl
    (fun d m =>
      (m.astreams.map audio_stream_info.duration).foldl min_step
        ((m.vstreams.map video_stream_info.duration).foldl min_step d))
    int64_max

/-- The multiset of all per-stream durations of all sources, in the order
the duration loop of `media_input::open` visits them. -/
def all_durations (objs : List media_object) : List Int :=
  objs.flatMap (fun m =>
    m.vstreams.map video_stream_info.duration ++ m.astreams.map audio_stream_info.duration)

/-- The tag lookup `media_input::tag_value(name)` (src lines 278-289):
linear scan over the tag names, empty string when absent. -/
def lookup_tag : List String → List String → String → String
  | n :: ns, v :: vs, name => if name = n then v else lookup_tag ns vs name
  | _, _, _ => ""

def media_input.tag_value_by_name (inp : media_input) (name : String) : String :=
  lookup_tag inp.tag_names inp.tag_values name

/-- Modelled from the spec: `str::to<int64_t>` (str.h is outside src/),
which throws on parse failure; `none` models the throw, caught in
`media_input::open` (src line 171) leaving `_initial_skip` unchanged. -/
def parse_int64 (s : String) : Option Int := s.toInt?

/-- The stereo-pair detection of `media_input::open` (src lines 173-192):
`_supports_stereo_layout_separate` is set iff the flattened video stream
count is exactly 2 and the two templates agree on width, height,
aspect ratio (compared with `<= && >=`), layout, colour space, value range
and chroma location. -/
def compute_supports_separate (objs : List media_object) : Bool :=
  if (objs.map media_object.video_streams).sum = 2 then
    match resolve_walk (objs.map media_object.video_streams) 0,
          resolve_walk (objs.map media_object.video_streams) 1 with
    | some (o0, v0), some (o1, v1) =>
      let t0 := (objs.getD o0 default_media_object).video_frame_template v0
      let t1 := (objs.getD o1 default_media_object).video_frame_template v1
      decide (t0.width = t1.width ∧ t0.height = t1.height
        ∧ (t0.aspect_ratio ≤ t1.aspect_ratio ∧ t0.aspect_ratio ≥ t1.aspect_ratio)
        ∧ t0.layout = t1.layout ∧ t0.color_space = t1.color_space
        ∧ t0.value_range = t1.value_range ∧ t0.chroma_location = t1.chroma_location)
    | _, _ => false
  else false

/-- `media_input::stereo_layout_is_supported(layout, swap)` (src lines
325-345).  The swap parameter is unnamed and unused in the source.  The
active stream's template is fetched through `get_video_stream`; the
out-of-range case is asserted away in the source and falls back to the
default template here. -/
def media_input.stereo_layout_is_supported (inp : media_input) (layout : stereo_layout_t) (_sw : Bool) : Bool :=
  if inp.video_streams < 1 then
    false
  else
    let t :=
      match inp.get_video_stream inp.active_video_stream.toNat with
      | some (o, s) => (inp.media_objects.getD o default_media_object).video_frame_template s
      | none => default_video_frame
    !(decide
      (((layout = stereo_layout_t.left_right ∨ layout = stereo_layout_t.left_right_half)
          ∧ t.raw_width % 2 ≠ 0)
        ∨ ((layout = stereo_layout_t.top_bottom ∨ layout = stereo_layout_t.top_bottom_half)
          ∧ t.raw_height % 2 ≠ 0)
        ∨ (layout = stereo_layout_t.even_odd_rows ∧ t.raw_height % 2 ≠ 0)
        ∨ (layout = stereo_layout_t.separate ∧ inp.supports_stereo_layout_separate = false)))

/-- `media_input::seek(pos)` (src lines 498-504): forward the position to
every source in order. -/
def media_input.seek (inp : media_input) (pos : Int) : media_input :=
  { inp with media_objects := inp.media_objects.map (fun m => m.seek pos) }

/-- Modelled from the spec: `video_frame::set_view_dimensions()`
(media_data.h is outside src/): recompute per-view dimensions from the raw
frame according to the layout — half width for the left/right layouts, half
height for the top/bottom layouts, full raw dimensions otherwise. -/
def video_frame.set_view_dimensions (f : video_frame) : video_frame :=
  match f.stereo_layout with
  | stereo_layout_t.left_right => { f with width := f.raw_width / 2, height := f.raw_height }
  | stereo_layout_t.left_right_half => { f with width := f.raw_width / 2, height := f.raw_height }
  | stereo_layout_t.top_bottom => { f with width := f.raw_width, height := f.raw_height / 2 }
  | stereo_layout_t.top_bottom_half => { f with width := f.raw_width, height := f.raw_height / 2 }
  | _ => { f with width := f.raw_width, height := f.raw_height }

/-- `media_input::set_stereo_layout(layout, swap)` (src lines 347-368):
refetch the active stream's template, override layout/swap, recompute view
dimensions, and when switching into `separate` re-seek all sources to the
first stream's position unless that position is unknown.  The source
asserts the layout is supported and the active stream resolves; the
unresolvable case is modelled as the identity. -/
def media_input.set_stereo_layout (inp : media_input) (layout : stereo_layout_t) (sw : Bool) : media_input :=
  match inp.get_video_stream inp.active_video_stream.toNat with
  | none => inp
  | some (o, s) =>
    let t := (inp.media_objects.getD o default_media_object).video_frame_template s
    let s1 := { inp with vframe :=
      ({ t with stereo_layout := layout, stereo_layout_swap := sw }).set_view_dimensions }
    if layout = stereo_layout_t.separate then
      let pos := (s1.media_objects.getD o default_media_object).tell
      if int64_min < pos then s1.seek pos else s1
    else
      s1

/-- The nested loop of the non-`separate` branch of
`media_input::select_video_stream` (src lines 392-398), walking sources
from index `i`: activate exactly local stream `s` of source `o`. -/
def set_exclusive_video_from (i o s : Nat) : List media_object → List media_object
  | [] => []
  | m :: rest =>
    { m with video_active :=
        (List.range m.video_streams).foldl (fun l j => l.set j (decide (i = o ∧ j = s))) m.video_active }
      :: set_exclusive_video_from (i + 1) o s rest

/-- The nested loop of `media_input::select_audio_stream` (src lines
409-415). -/
def set_exclusive_audio_from (i o s : Nat) : List media_object → List media_object
  | [] => []
  | m :: rest =>
    { m with audio_active :=
        (List.range m.audio_streams).foldl (fun l j => l.set j (decide (i = o ∧ j = s))) m.audio_active }
      :: set_exclusive_audio_from (i + 1) o s rest

/-- `media_input::select_video_stream(video_stream)` (src lines 370-400):
when the current layout is `separate`, activate every video stream of every
source (the index argument is not consulted); otherwise store the new
active index, re-derive the format through `set_stereo_layout` with the
previous layout/swap, and activate exactly the chosen stream. -/
def media_input.select_video_stream (inp : media_input) (video_stream : Nat) : media_input :=
  if inp.vframe.stereo_layout = stereo_layout_t.separate then
    { inp with media_objects := inp.media_objects.map (fun m =>
        { m with video_active :=
            (List.range m.video_streams).foldl (fun l j => l.set j true) m.video_active }) }
  else
    let layout := inp.vframe.stereo_layout
    let sw := inp.vframe.stereo_layout_swap
    let s1 := { inp with active_video_stream := (video_stream : Int) }
    let s2 := s1.set_stereo_layout layout sw
    match s2.get_video_stream video_stream with
    | some (o, s) => { s2 with media_objects := set_exclusive_video_from 0 o s s2.media_objects }
    | none => s2

/-- `media_input::select_audio_stream(audio_stream)` (src lines 402-416). -/
def media_input.select_audio_stream (inp : media_input) (audio_stream : Nat) : media_input :=
  let s1 := { inp with active_audio_stream := (audio_stream : Int) }
  match s1.get_audio_stream audio_stream with
  | some (o, s) => { s1 with media_objects := set_exclusive_audio_from 0 o s s1.media_objects }
  | none => s1

/-- `media_input::video_frame_rate_numerator()` (src lines 297-303).  The
source resolves the active global index to `(o, s)` and then reads
`_media_objects[s].video_frame_rate_numerator(s)` — the media object is
indexed with the local stream index `s`, and the computed source index `o`
is never used; the translation reproduces this. -/
def media_input.video_frame_rate_numerator_impl (inp : media_input) : Int :=
  match inp.get_video_stream inp.active_video_stream.toNat with
  | some (_, s) => (inp.media_objects.getD s default_media_object).video_frame_rate_numerator s
  | none => 0

/-- `media_input::video_frame_rate_denominator()` (src lines 305-311),
with the same `_media_objects[s]` indexing as the numerator. -/
def media_input.video_frame_rate_denominator_impl (inp : media_input) : Int :=
  match inp.get_video_stream inp.active_video_stream.toNat with
  | some (_, s) => (inp.media_objects.getD s default_media_object).video_frame_rate_denominator s
  | none => 0

/-- `media_input::finish_video_frame_read()` (src lines 437-480).  The
blocking per-source reads are external; `read o s` stands for the frame
returned by `_media_objects[o].finish_video_frame_read(s)`.  In `separate`
layout both sub-reads are finished; if either is invalid the default
(invalid) frame is returned, otherwise view 0's planes go to slot 0 and
view 1's to slot 1 of a frame carrying `_video_frame`'s format, with
view 0's presentation time.  Otherwise the single active stream's planes go
to slot 0 only. -/
def media_input.finish_video_frame_read (inp : media_input) (read : Nat → Nat → video_frame) : video_frame :=
  if inp.vframe.stereo_layout = stereo_layout_t.separate then
    match inp.get_video_stream 0, inp.get_video_stream 1 with
    | some (o0, s0), some (o1, s1) =>
      let f0 := read o0 s0
      let f1 := read o1 s1
      if !f0.is_valid || !f1.is_valid then
        default_video_frame
      else
        { inp.vframe with
            data := fun v p => if v = 0 then f0.data 0 p else f1.data 0 p,
            line_size := fun v p => if v = 0 then f0.line_size 0 p else f1.line_size 0 p,
            presentation_time := f0.presentation_time }
    | _, _ => default_video_frame
  else
    match inp.get_video_stream inp.active_video_stream.toNat with
    | some (o, s) =>
      let f := read o s
      if !f.is_valid then
        default_video_frame
      else
        { inp.vframe with
            data := fun v p => if v = 0 then f.data 0 p else inp.vframe.data v p,
            line_size := fun v p => if v = 0 then f.line_size 0 p else inp.vframe.line_size v p,
            presentation_time := f.presentation_time }
    | none => default_video_frame

/-- `std::vector::resize(n)` on `_media_objects` (src line 101): keep the
first `n` elements, append default-constructed objects to reach length `n`. -/
def resize_objects (objs : List media_object) (n : Nat) : List media_object :=
  objs.take n ++ List.replicate (n - objs.length) default_media_object

/-- The source-opening loop of `media_input::open` (src lines 102-105).
`world url` is the result of `media_object::open(url)`: `some m` opens the
placeholder in place as `m`, `none` throws.  A C++ exception propagates
with the vector keeping the sources opened so far and the untouched
placeholders; `Except.error` carries that vector. -/
def open_sources (world : String → Option media_object) :
    List String → List media_object → Except (List media_object) (List media_object)
  | [], ps => Except.ok ps
  | u :: us, ps =>
    match world u with
    | none => Except.error ps
    | some m =>
      match open_sources world us ps.tail with
      | Except.ok rest => Except.ok (m :: rest)
      | Except.error rest => Except.error (m :: rest)

/-- Metadata phase of `media_input::open` (src lines 107-192): id, tags,
stream names, duration, initial skip, stereo-pair detection. -/
def open_gather (inp : media_input) (objs : List media_object) : media_input :=
  let s1 := { inp with
      media_objects := objs,
      id := build_id objs,
      tag_names := build_tag_names objs,
      tag_values := build_tag_values objs,
      video_stream_names := build_video_stream_names objs,
      audio_stream_names := build_audio_stream_names objs,
      duration := duration_fold objs }
  let s2 := { s1 with initial_skip :=
      (parse_int64 (s1.tag_value_by_name "StereoscopicSkip")).getD s1.initial_skip }
  { s2 with supports_stereo_layout_separate := compute_supports_separate objs }

/-- First half of the default video-stream activation of
`media_input::open` (src lines 193-211): pick global index 0 (with the
`separate` override when the stereo pair is supported) and store its
template, or record that there is no video stream. -/
def open_pick_video_default (s : media_input) : media_input :=
  if s.supports_stereo_layout_separate then
    match s.get_video_stream 0 with
    | some (o, st) =>
      { s with active_video_stream := 0,
               vframe := { (s.media_objects.getD o default_media_object).video_frame_template st
                             with stereo_layout := stereo_layout_t.separate } }
    | none => { s with active_video_stream := 0 }
  else if 0 < s.video_streams then
    match s.get_video_stream 0 with
    | some (o, st) =>
      { s with active_video_stream := 0,
               vframe := (s.media_objects.getD o default_media_object).video_frame_template st }
    | none => { s with active_video_stream := 0 }
  else
    { s with active_video_stream := -1 }

/-- Default video-stream activation of `media_input::open` (src lines
193-215): the pick above followed by `select_video_stream` on the chosen
index when there is one. -/
def open_select_video_defaults (s : media_input) : media_input :=
  let s4 := open_pick_video_default s
  if 0 ≤ s4.active_video_stream then s4.select_video_stream s4.active_video_stream.toNat else s4

/-- First half of the default audio-stream activation of
`media_input::open` (src line 218). -/
def open_pick_audio_default (s : media_input) : media_input :=
  { s with active_audio_stream := if 0 < s.audio_streams then 0 else -1 }

/-- Default audio-stream activation of `media_input::open` (src lines
217-225). -/
def open_select_audio_defaults (s : media_input) : media_input :=
  let s6 := open_pick_audio_default s
  if 0 ≤ s6.active_audio_stream then
    match s6.get_audio_stream s6.active_audio_stream.toNat with
    | some (o, st) =>
      ({ s6 with ablob := (s6.media_objects.getD o default_media_object).audio_blob_template st
       }).select_audio_stream s6.active_audio_stream.toNat
    | none => s6
  else
    s6

/-- Everything `media_input::open` does after all sources opened (src lines
107-253; the closing `msg::inf` summary is an informational side effect
with no state change and is not modelled). -/
def open_after (inp : media_input) (objs : List media_object) : media_input :=
  open_select_audio_defaults (open_select_video_defaults (open_gather inp objs))

/-- `media_input::open(urls)` (src lines 96-254).  `open` is a keyword in
Lean, hence the `Impl` suffix.  On a source-open failure the C++ exception
propagates with the object keeping all mutations made so far, i.e. the
resized vector with the sources opened before the failure. -/
def media_input.openImpl (inp : media_input) (urls : List String)
    (world : String → Option media_object) : Except media_input media_input :=
  match open_sources world urls (resize_objects inp.media_objects urls.length) with
  | Except.error objs => Except.error { inp with media_objects := objs }
  | Except.ok objs => Except.ok (open_after inp objs)

/-- `media_input::close()` (src lines 506-524): reset `_id`, close and clear
the sources, clear the tag and stream-name tables, and restore the
sentinel values.  Note the source does not touch
`_supports_stereo_layout_separate` here. -/
def media_input.close (inp : media_input) : media_input :=
  { inp with
      id := "",
      media_objects := [],
      tag_names := [],
      tag_values := [],
      video_stream_names := [],
      audio_stream_names := [],
      active_video_stream := -1,
      active_audio_stream := -1,
      initial_skip := 0,
      duration := -1,
      vframe := default_video_frame,
      ablob := default_audio_blob }
/-- The immutable per-source stream data (templates, durations, frame
rates) — everything about the sources except activation flags and read
positions, which stream selection and seeking mutate. -/
def streams_of (objs : List media_object) : List (List video_stream_info × List audio_stream_info) :=
  objs.map (fun m => (m.vstreams, m.astreams))

/-! ## Concrete inputs used by the closed instantiations below -/

/-- A representative valid video format template. -/
def sample_frame : video_frame :=
  { width := 640, height := 480, raw_width := 640, raw_height := 480,
    aspect_ratio := 1, layout := 1, color_space := 1, value_range := 1,
    chroma_location := 1, stereo_layout := stereo_layout_t.mono,
    stereo_layout_swap := false, data := fun _ _ => 0, line_size := fun _ _ => 0,
    presentation_time := 0, valid := true, format_info := "640x480" }

/-- A source holding exactly one (inactive) video stream and nothing else. -/
def single_video_object (u : String) (t : video_frame) (dur num den : Int) : media_object :=
  { url := u, vstreams := [{ template := t, duration := dur, rate_num := num, rate_den := den }],
    astreams := [], tag_list := [], video_active := [false], audio_active := [],
    position := int64_min }

/-- A 10-second single-video-stream source. -/
def obj_c2a : media_object := single_video_object "a" sample_frame 10000000 30 1

/-- A 7-second single-video-stream source. -/
def obj_c2b : media_object := single_video_object "b" sample_frame 7000000 25 1

/-- A world in which urls "a" and "b" open the 10s and 7s sources. -/
def world_c2 : String → Option media_object :=
  fun u => if u = "a" then some obj_c2a else if u = "b" then some obj_c2b else none

def objs_c2 : List media_object := [obj_c2a, obj_c2b]

/-- The state reached by opening "a" and "b" in `world_c2`. -/
def opened_c2 : media_input := open_after media_input.init objs_c2

/-- An input in `separate` layout over two single-stream sources. -/
def inp_c4 : media_input :=
  { media_input.init with
      media_objects := objs_c2,
      active_video_stream := 0,
      vframe := { sample_frame with stereo_layout := stereo_layout_t.separate },
      supports_stereo_layout_separate := true }

/-- A read oracle whose source 0 yields a valid frame and source 1 an
invalid one (source 1 exhausted). -/
def read_c4 : Nat → Nat → video_frame :=
  fun o _ => if o = 0 then { sample_frame with presentation_time := 42, data := fun _ _ => 7 }
             else default_video_frame

/-- A template with even raw width and odd raw height. -/
def frame_c5 : video_frame := { sample_frame with raw_width := 4, raw_height := 3 }

/-- A single-source input whose active stream has raw size 4x3. -/
def inp_c5 : media_input :=
  { media_input.init with
      media_objects := [single_video_object "a" frame_c5 100 30 1],
      active_video_stream := 0 }

/-- A source holding exactly one active video stream. -/
def active_video_object (u : String) (t : video_frame) : media_object :=
  { url := u, vstreams := [{ template := t, duration := 100, rate_num := 30, rate_den := 1 }],
    astreams := [], tag_list := [], video_active := [true], audio_active := [],
    position := int64_min }

/-- A `separate`-layout input whose two underlying streams are both active. -/
def inp_c6 : media_input :=
  { media_input.init with
      media_objects := [active_video_object "l" sample_frame, active_video_object "r" sample_frame],
      active_video_stream := 0,
      vframe := { sample_frame with stereo_layout := stereo_layout_t.separate },
      supports_stereo_layout_separate := true }

/-- A world in which url "a" opens and every other url fails to open. -/
def world_c8 : String → Option media_object :=
  fun u => if u = "a" then some obj_c2a else none

/-- The state left behind by the failed `open(["a", "x"])` in `world_c8`:
the vector was resized to 2 and source "a" had already been opened when
opening "x" threw. -/
def failed_c8 : media_input :=
  { media_input.init with media_objects := [obj_c2a, default_media_object] }

/-- Two single-stream sources with distinct frame rates (30 and 24). -/
def obj_c9a : media_object := single_video_object "a" sample_frame 100 30 1

def obj_c9b : media_object := single_video_object "b" sample_frame 100 24 1

/-- An input whose active video stream is global index 1, i.e. the only
stream of the second source: `get_video_stream` resolves it to source 1,
local stream 0. -/
def inp_c9 : media_input :=
  { media_input.init with
      media_objects := [obj_c9a, obj_c9b],
      active_video_stream := 1 }

/-! ## Flattened stream resolution (claim C1) -/

theorem resolve_walk_lt_of_mem_range (c : Nat) (rest : List Nat) (k : Nat) (hk : k < c) :
    resolve_walk (c :: rest) k = some (0, k) := by
  unfold resolve_walk
  rw [if_neg (by omega)]

theorem resolve_walk_shift (c : Nat) (rest : List Nat) (k : Nat) :
    resolve_walk (c :: rest) (c + k) = (resolve_walk rest k).map (fun p => (p.1 + 1, p.2)) := by
  simp only [resolve_walk]
  rw [if_pos (by omega), Nat.add_sub_cancel_left]

/-- The walk, evaluated over all of `[0, total)`, enumerates exactly the
canonical (source, local) pairs in order. -/
theorem resolve_walk_enum (counts : List Nat) :
    (List.range counts.sum).map (resolve_walk counts) = (stream_pairs counts).map some := by
  induction counts with
  | nil => rfl
  | cons c rest ih =>
    rw [List.sum_cons, List.range_add, List.map_append, stream_pairs, List.map_append]
    congr 1
    · rw [List.map_map]
      apply List.map_congr_left
      intro k hk
      rw [List.mem_range] at hk
      exact resolve_walk_lt_of_mem_range c rest k hk
    · rw [List.map_map, List.map_map]
      have : ∀ k ∈ List.range rest.sum,
          (resolve_walk (c :: rest) ∘ fun x => c + x) k = ((Option.map (fun p => (p.1 + 1, p.2))) ∘ resolve_walk rest) k := by
        intro k _
        exact resolve_walk_shift c rest k
      rw [List.map_congr_left this, ← List.map_map, ih]
      simp only [List.map_map]
      exact List.map_congr_left (fun a _ => rfl)

theorem stream_pairs_nodup (counts : List Nat) : (stream_pairs counts).Nodup := by
  induction counts with
  | nil => exact List.nodup_nil
  | cons c rest ih =>
    refine List.Nodup.append ?_ ?_ ?_
    · exact (List.nodup_range c).map (fun a b h => by simpa using h)
    · exact ih.map (fun a b h => by
        cases a; cases b
        simp only [Prod.mk.injEq] at h ⊢
        exact ⟨by omega, h.2⟩)
    · intro p hp hq
      obtain ⟨j, _, hj⟩ := List.mem_map.mp hp
      obtain ⟨q, _, hq'⟩ := List.mem_map.mp hq
      rw [← hj] at hq'
      simp at hq'

theorem resolve_walk_isSome (counts : List Nat) (k : Nat) (hk : k < counts.sum) :
    (resolve_walk counts k).isSome = true := by
  induction counts generalizing k with
  | nil => simp at hk
  | cons c rest ih =>
    by_cases h : k < c
    · rw [resolve_walk_lt_of_mem_range c rest k h]
      rfl
    · have hk' : k = c + (k - c) := by omega
      rw [hk', resolve_walk_shift]
      rw [List.sum_cons] at hk
      have := ih (k - c) (by omega)
      cases hres : resolve_walk rest (k - c) with
      | none => rw [hres] at this; simp at this
      | some p => rfl

/-- C1.  For every `media_input` over its sources, the flattened video
(resp. audio) stream count is the sum of the per-source counts, and
`get_video_stream` (resp. `get_audio_stream`) enumerates, over the global
indices `[0, total)`, exactly the (source index, local stream index) pairs
in source order with local indices in order within each source — a
bijection onto that (duplicate-free) enumeration. -/
theorem get_stream_bijection (inp : media_input) :
    (inp.video_streams = (inp.media_objects.map media_object.video_streams).sum
      ∧ (List.range inp.video_streams).map inp.get_video_stream
          = (stream_pairs (inp.media_objects.map media_object.video_streams)).map some
      ∧ (stream_pairs (inp.media_objects.map media_object.video_streams)).Nodup)
    ∧ (inp.audio_streams = (inp.media_objects.map media_object.audio_streams).sum
      ∧ (List.range inp.audio_streams).map inp.get_audio_stream
          = (stream_pairs (inp.media_objects.map media_object.audio_streams)).map some
      ∧ (stream_pairs (inp.media_objects.map media_object.audio_streams)).Nodup) :=
  ⟨⟨rfl, resolve_walk_enum _, stream_pairs_nodup _⟩,
   ⟨rfl, resolve_walk_enum _, stream_pairs_nodup _⟩⟩

/-! ## Preservation of immutable state through selection, layout and seek -/

theorem streams_of_seek (inp : media_input) (pos : Int) :
    streams_of (inp.seek pos).media_objects = streams_of inp.media_objects := by
  unfold media_input.seek streams_of
  rw [List.map_map]
  exact List.map_congr_left (fun m _ => rfl)

theorem streams_of_set_exclusive_video (o s : Nat) (i : Nat) (objs : List media_object) :
    streams_of (set_exclusive_video_from i o s objs) = streams_of objs := by
  induction objs generalizing i with
  | nil => rfl
  | cons m rest ih =>
    unfold set_exclusive_video_from streams_of
    simp only [List.map_cons]
    exact congrArg _ (ih (i + 1))

theorem streams_of_set_exclusive_audio (o s : Nat) (i : Nat) (objs : List media_object) :
    streams_of (set_exclusive_audio_from i o s objs) = streams_of objs := by
  induction objs generalizing i with
  | nil => rfl
  | cons m rest ih =>
    unfold set_exclusive_audio_from streams_of
    simp only [List.map_cons]
    exact congrArg _ (ih (i + 1))

theorem set_stereo_layout_keeps (inp : media_input) (layout : stereo_layout_t) (sw : Bool) :
    (inp.set_stereo_layout layout sw).duration = inp.duration
    ∧ (inp.set_stereo_layout layout sw).supports_stereo_layout_separate
        = inp.supports_stereo_layout_separate
    ∧ streams_of (inp.set_stereo_layout layout sw).media_objects
        = streams_of inp.media_objects := by
  unfold media_input.set_stereo_layout
  cases h : inp.get_video_stream inp.active_video_stream.toNat with
  | none => exact ⟨rfl, rfl, rfl⟩
  | some p =>
    cases p with
    | mk o s =>
      dsimp only
      split
      · split
        · exact ⟨rfl, rfl, streams_of_seek _ _⟩
        · exact ⟨rfl, rfl, rfl⟩
      · exact ⟨rfl, rfl, rfl⟩

theorem select_video_stream_keeps (inp : media_input) (k : Nat) :
    (inp.select_video_stream k).duration = inp.duration
    ∧ (inp.select_video_stream k).supports_stereo_layout_separate
        = inp.supports_stereo_layout_separate
    ∧ streams_of (inp.select_video_stream k).media_objects
        = streams_of inp.media_objects := by
  unfold media_input.select_video_stream
  split
  · refine ⟨rfl, rfl, ?_⟩
    unfold streams_of
    rw [List.map_map]
    exact List.map_congr_left (fun m _ => rfl)
  · dsimp only
    have h2 := set_stereo_layout_keeps { inp with active_video_stream := (k : Int) }
      inp.vframe.stereo_layout inp.vframe.stereo_layout_swap
    split
    · exact ⟨h2.1, h2.2.1, (streams_of_set_exclusive_video _ _ _ _).trans h2.2.2⟩
    · exact ⟨h2.1, h2.2.1, h2.2.2⟩

theorem select_audio_stream_keeps (inp : media_input) (k : Nat) :
    (inp.select_audio_stream k).duration = inp.duration
    ∧ (inp.select_audio_stream k).supports_stereo_layout_separate
        = inp.supports_stereo_layout_separate
    ∧ streams_of (inp.select_audio_stream k).media_objects
        = streams_of inp.media_objects := by
  unfold media_input.select_audio_stream
  dsimp only
  split
  · exact ⟨rfl, rfl, streams_of_set_exclusive_audio _ _ _ _⟩
  · exact ⟨rfl, rfl, rfl⟩

theorem open_pick_video_default_keeps (s : media_input) :
    (open_pick_video_default s).duration = s.duration
    ∧ (open_pick_video_default s).supports_stereo_layout_separate
        = s.supports_stereo_layout_separate
    ∧ streams_of (open_pick_video_default s).media_objects = streams_of s.media_objects := by
  unfold open_pick_video_default
  split
  · split <;> exact ⟨rfl, rfl, rfl⟩
  · split
    · split <;> exact ⟨rfl, rfl, rfl⟩
    · exact ⟨rfl, rfl, rfl⟩

theorem open_select_video_defaults_keeps (s : media_input) :
    (open_select_video_defaults s).duration = s.duration
    ∧ (open_select_video_defaults s).supports_stereo_layout_separate
        = s.supports_stereo_layout_separate
    ∧ streams_of (open_select_video_defaults s).media_objects
        = streams_of s.media_objects := by
  unfold open_select_video_defaults
  dsimp only
  have hp := open_pick_video_default_keeps s
  split
  · have hs := select_video_stream_keeps (open_pick_video_default s)
      (open_pick_video_default s).active_video_stream.toNat
    exact ⟨hs.1.trans hp.1, hs.2.1.trans hp.2.1, hs.2.2.trans hp.2.2⟩
  · exact hp

theorem open_select_audio_defaults_keeps (s : media_input) :
    (open_select_audio_defaults s).duration = s.duration
    ∧ (open_select_audio_defaults s).supports_stereo_layout_separate
        = s.supports_stereo_layout_separate
    ∧ streams_of (open_select_audio_defaults s).media_objects
        = streams_of s.media_objects := by
  unfold open_select_audio_defaults open_pick_audio_default
  dsimp only
  split <;> split <;>
    first
      | exact ⟨rfl, rfl, rfl⟩
      | split <;>
          first
            | exact ⟨(select_audio_stream_keeps _ _).1, (select_audio_stream_keeps _ _).2.1,
                (select_audio_stream_keeps _ _).2.2⟩
            | exact ⟨rfl, rfl, rfl⟩

theorem open_after_keeps (inp : media_input) (objs : List media_object) :
    (open_after inp objs).duration = duration_fold objs
    ∧ (open_after inp objs).supports_stereo_layout_separate = compute_supports_separate objs
    ∧ streams_of (open_after inp objs).media_objects = streams_of objs := by
  unfold open_after
  refine ⟨?_, ?_, ?_⟩
  · exact ((open_select_audio_defaults_keeps _).1).trans
      (((open_select_video_defaults_keeps _).1).trans rfl)
  · exact ((open_select_audio_defaults_keeps _).2.1).trans
      (((open_select_video_defaults_keeps _).2.1).trans rfl)
  · exact ((open_select_audio_defaults_keeps _).2.2).trans
      (((open_select_video_defaults_keeps _).2.2).trans rfl)

/-! ## Duration minimisation (claim C2) -/

theorem min_step_eq_min (d x : Int) : min_step d x = min d x := by
  unfold min_step
  rw [Int.min_def]
  split <;> split <;> omega

theorem foldl_min_step (l : List Int) (d : Int) : l.foldl min_step d = l.foldl min d := by
  induction l generalizing d with
  | nil => rfl
  | cons x t ih => rw [List.foldl_cons, List.foldl_cons, min_step_eq_min]; exact ih _

theorem duration_fold_general (objs : List media_object) : ∀ d : Int,
    objs.foldl
      (fun d m =>
        (m.astreams.map audio_stream_info.duration).foldl min_step
          ((m.vstreams.map video_stream_info.duration).foldl min_step d)) d
    = (all_durations objs).foldl min d := by
  induction objs with
  | nil => intro d; rfl
  | cons m rest ih =>
    intro d
    rw [List.foldl_cons, ih]
    unfold all_durations
    rw [List.flatMap_cons, List.append_assoc, List.foldl_append, List.foldl_append,
      foldl_min_step, foldl_min_step]

theorem duration_fold_eq (objs : List media_object) :
    duration_fold objs = (all_durations objs).foldl min int64_max :=
  duration_fold_general objs int64_max

theorem all_durations_streams (objs : List media_object) :
    all_durations objs = (streams_of objs).flatMap
      (fun p => p.1.map video_stream_info.duration ++ p.2.map audio_stream_info.duration) := by
  induction objs with
  | nil => rfl
  | cons m rest ih =>
    unfold all_durations streams_of
    rw [List.flatMap_cons, List.map_cons, List.flatMap_cons]
    exact congrArg _ ih

theorem foldl_min_le (l : List Int) : ∀ a : Int, ∀ x ∈ a :: l, l.foldl min a ≤ x := by
  induction l with
  | nil =>
    intro a x hx
    rw [List.mem_singleton] at hx
    simp [hx]
  | cons y t ih =>
    intro a x hx
    rw [List.foldl_cons]
    rcases List.mem_cons.mp hx with h1 | h2
    · exact le_trans (ih (min a y) (min a y) (List.mem_cons_self _ _)) (h1 ▸ min_le_left a y)
    · rcases List.mem_cons.mp h2 with h3 | h4
      · exact le_trans (ih (min a y) (min a y) (List.mem_cons_self _ _)) (h3 ▸ min_le_right a y)
      · exact ih (min a y) x (List.mem_cons_of_mem _ h4)

theorem foldl_min_mem (l : List Int) : ∀ a : Int, l.foldl min a ∈ a :: l := by
  induction l with
  | nil => intro a; exact List.mem_cons_self _ _
  | cons y t ih =>
    intro a
    rw [List.foldl_cons]
    rcases List.mem_cons.mp (ih (min a y)) with h | h
    · rw [h]
      rcases min_choice a y with hm | hm
      · rw [hm]; exact List.mem_cons_self _ _
      · rw [hm]; exact List.mem_cons_of_mem _ (List.mem_cons_self _ _)
    · exact List.mem_cons_of_mem _ (List.mem_cons_of_mem _ h)

/-- C2.  After a successful `open`, `duration()` is the minimum of the
per-stream durations over every video and every audio stream of every
source (active or not), provided there is at least one stream and every
duration is representable (at most INT64_MAX); in particular opening two
sources of durations 10s and 7s yields `duration() == 7000000`
microseconds. -/
theorem open_duration_minimum :
    (∀ (inp : media_input) (urls : List String) (world : String → Option media_object)
        (s : media_input),
      inp.openImpl urls world = Except.ok s →
      all_durations s.media_objects ≠ [] →
      (∀ d ∈ all_durations s.media_objects, d ≤ int64_max) →
      s.duration ∈ all_durations s.media_objects
        ∧ ∀ d ∈ all_durations s.media_objects, s.duration ≤ d)
    ∧ (media_input.init.openImpl ["a", "b"] world_c2).map media_input.duration
        = Except.ok 7000000 := by
  constructor
  · intro inp urls world s hopen hne hb
    unfold media_input.openImpl at hopen
    cases heq : open_sources world urls (resize_objects inp.media_objects urls.length) with
    | error v => rw [heq] at hopen; exact absurd hopen (by simp)
    | ok objs =>
      rw [heq] at hopen
      have hs : s = open_after inp objs := by
        injection hopen with h
        exact h.symm
      subst hs
      have hk := open_after_keeps inp objs
      have hdur : (open_after inp objs).duration
          = (all_durations (open_after inp objs).media_objects).foldl min int64_max := by
        rw [hk.1, duration_fold_eq]
        congr 1
        rw [all_durations_streams, all_durations_streams, hk.2.2]
      constructor
      · rcases List.mem_cons.mp
          (hdur ▸ foldl_min_mem (all_durations (open_after inp objs).media_objects) int64_max)
          with h | h
        · obtain ⟨d0, hd0⟩ :=
            List.exists_mem_of_ne_nil (all_durations (open_after inp objs).media_objects) hne
          have hle : (open_after inp objs).duration ≤ d0 :=
            hdur ▸ foldl_min_le _ int64_max d0 (List.mem_cons_of_mem _ hd0)
          have hd0max : d0 = (open_after inp objs).duration :=
            le_antisymm (h ▸ hb d0 hd0) hle
          exact hd0max ▸ hd0
        · exact h
      · intro d hd
        exact hdur ▸ foldl_min_le _ int64_max d (List.mem_cons_of_mem _ hd)
  · rfl

/-- Instantiation of the duration-minimum statement at the concrete
10-second / 7-second pair of sources. -/
theorem open_duration_minimum_witness :
    opened_c2.duration ∈ all_durations opened_c2.media_objects
      ∧ ∀ d ∈ all_durations opened_c2.media_objects, opened_c2.duration ≤ d :=
  open_duration_minimum.1 media_input.init ["a", "b"] world_c2 opened_c2 rfl
    (by decide) (by decide)

/-! ## Stereo-pair detection (claim C3) -/

theorem vcounts_of_streams {a b : List media_object} (h : streams_of a = streams_of b) :
    a.map media_object.video_streams = b.map media_object.video_streams := by
  have h2 := congrArg (List.map (fun p => p.1.length)) h
  unfold streams_of at h2
  rw [List.map_map, List.map_map] at h2
  exact h2

theorem template_of_streams {a b : List media_object} (h : streams_of a = streams_of b)
    (o j : Nat) :
    (a.getD o default_media_object).video_frame_template j
      = (b.getD o default_media_object).video_frame_template j := by
  have h2 := congrArg (fun l => l[o]?) h
  unfold streams_of at h2
  simp only [List.getElem?_map] at h2
  rw [List.getD_eq_getElem?_getD, List.getD_eq_getElem?_getD]
  cases ha : a[o]? with
  | none =>
    cases hb : b[o]? with
    | none => rfl
    | some mb => rw [ha, hb] at h2; simp at h2
  | some ma =>
    cases hb : b[o]? with
    | none => rw [ha, hb] at h2; simp at h2
    | some mb =>
      rw [ha, hb] at h2
      have hv : ma.vstreams = mb.vstreams := by
        simp only [Option.map] at h2
        exact congrArg Prod.fst (Option.some.inj h2)
      unfold media_object.video_frame_template
      simp only [Option.getD_some]
      rw [hv]

theorem compute_supports_separate_spec (objs : List media_object) :
    compute_supports_separate objs = true ↔
      ((objs.map media_object.video_streams).sum = 2 ∧
        ∀ o0 v0 o1 v1,
          resolve_walk (objs.map media_object.video_streams) 0 = some (o0, v0) →
          resolve_walk (objs.map media_object.video_streams) 1 = some (o1, v1) →
          (let t0 := (objs.getD o0 default_media_object).video_frame_template v0
           let t1 := (objs.getD o1 default_media_object).video_frame_template v1
           t0.width = t1.width ∧ t0.height = t1.height ∧ t0.aspect_ratio = t1.aspect_ratio
             ∧ t0.layout = t1.layout ∧ t0.color_space = t1.color_space
             ∧ t0.value_range = t1.value_range ∧ t0.chroma_location = t1.chroma_location)) := by
  unfold compute_supports_separate
  split
  case isTrue h2 =>
    have h0 := resolve_walk_isSome (objs.map media_object.video_streams) 0 (by omega)
    have h1 := resolve_walk_isSome (objs.map media_object.video_streams) 1 (by omega)
    obtain ⟨p0, hp0⟩ := Option.isSome_iff_exists.mp h0
    obtain ⟨p1, hp1⟩ := Option.isSome_iff_exists.mp h1
    cases p0 with
    | mk o0 v0 =>
    cases p1 with
    | mk o1 v1 =>
    rw [hp0, hp1]
    dsimp only
    rw [decide_eq_true_iff]
    constructor
    · rintro ⟨hw, hh, ⟨hle, hge⟩, hl, hc, hv, hch⟩
      refine ⟨h2, ?_⟩
      intro o0' v0' o1' v1' e0 e1
      have e0' := Option.some.inj e0
      have e1' := Option.some.inj e1
      injection e0' with g1 g2
      injection e1' with g3 g4
      subst g1; subst g2; subst g3; subst g4
      exact ⟨hw, hh, le_antisymm hle hge, hl, hc, hv, hch⟩
    · rintro ⟨-, hall⟩
      have hthis := hall o0 v0 o1 v1 rfl rfl
      exact ⟨hthis.1, hthis.2.1, ⟨hthis.2.2.1.le, hthis.2.2.1.ge⟩, hthis.2.2.2.1,
        hthis.2.2.2.2.1, hthis.2.2.2.2.2.1, hthis.2.2.2.2.2.2⟩
  case isFalse h2 =>
    constructor
    · intro h
      exact absurd h (by simp)
    · rintro ⟨hc, -⟩
      exact absurd hc h2

/-- C3.  After a successful `open`, `supports_stereo_layout_separate` is
true iff the flattened video stream count is exactly 2 and the two
streams' templates agree exactly on width, height, layout, color space,
value range and chroma location, and have equal aspect ratio; it is false
in every other case. -/
theorem open_supports_separate_iff
    (inp : media_input) (urls : List String) (world : String → Option media_object)
    (s : media_input) (hopen : inp.openImpl urls world = Except.ok s) :
    (s.supports_stereo_layout_separate = true ↔
      (s.video_streams = 2 ∧
        ∀ o0 v0 o1 v1,
          s.get_video_stream 0 = some (o0, v0) →
          s.get_video_stream 1 = some (o1, v1) →
          (let t0 := (s.media_objects.getD o0 default_media_object).video_frame_template v0
           let t1 := (s.media_objects.getD o1 default_media_object).video_frame_template v1
           t0.width = t1.width ∧ t0.height = t1.height ∧ t0.aspect_ratio = t1.aspect_ratio
             ∧ t0.layout = t1.layout ∧ t0.color_space = t1.color_space
             ∧ t0.value_range = t1.value_range ∧ t0.chroma_location = t1.chroma_location))) := by
  unfold media_input.openImpl at hopen
  cases heq : open_sources world urls (resize_objects inp.media_objects urls.length) with
  | error v => rw [heq] at hopen; exact absurd hopen (by simp)
  | ok objs =>
    rw [heq] at hopen
    have hs : s = open_after inp objs := by
      injection hopen with h
      exact h.symm
    subst hs
    have hk := open_after_keeps inp objs
    have hcounts : (open_after inp objs).media_objects.map media_object.video_streams
        = objs.map media_object.video_streams := vcounts_of_streams hk.2.2
    unfold media_input.video_streams media_input.get_video_stream
    rw [hk.2.1, hcounts]
    simp only [template_of_streams hk.2.2]
    exact compute_supports_separate_spec objs

/-- Instantiation of the stereo-pair characterisation at the concrete
two-identical-source input. -/
theorem open_supports_separate_iff_witness :
    (opened_c2.supports_stereo_layout_separate = true ↔
      (opened_c2.video_streams = 2 ∧
        ∀ o0 v0 o1 v1,
          opened_c2.get_video_stream 0 = some (o0, v0) →
          opened_c2.get_video_stream 1 = some (o1, v1) →
          (let t0 := (opened_c2.media_objects.getD o0 default_media_object).video_frame_template v0
           let t1 := (opened_c2.media_objects.getD o1 default_media_object).video_frame_template v1
           t0.width = t1.width ∧ t0.height = t1.height ∧ t0.aspect_ratio = t1.aspect_ratio
             ∧ t0.layout = t1.layout ∧ t0.color_space = t1.color_space
             ∧ t0.value_range = t1.value_range ∧ t0.chroma_location = t1.chroma_location))) :=
  open_supports_separate_iff media_input.init ["a", "b"] world_c2 opened_c2 rfl

/-! ## Paired frame read (claim C4) -/

/-- C4.  In `separate` layout, `finish_video_frame_read` returns the
default (invalid) frame whenever either sub-read yields an invalid frame,
and only when both are valid does it return a frame carrying the input's
current format, with view 0's planes and strides in slot 0, view 1's in
slot 1, and view 0's presentation time. -/
theorem finish_video_frame_read_separate_spec (inp : media_input)
    (read : Nat → Nat → video_frame) (o0 s0 o1 s1 : Nat)
    (hsep : inp.vframe.stereo_layout = stereo_layout_t.separate)
    (h0 : inp.get_video_stream 0 = some (o0, s0))
    (h1 : inp.get_video_stream 1 = some (o1, s1)) :
    (((read o0 s0).is_valid = false ∨ (read o1 s1).is_valid = false) →
      inp.finish_video_frame_read read = default_video_frame)
    ∧ ((read o0 s0).is_valid = true → (read o1 s1).is_valid = true →
        ((∀ p : Fin 3,
            (inp.finish_video_frame_read read).data 0 p = (read o0 s0).data 0 p
            ∧ (inp.finish_video_frame_read read).data 1 p = (read o1 s1).data 0 p
            ∧ (inp.finish_video_frame_read read).line_size 0 p = (read o0 s0).line_size 0 p
            ∧ (inp.finish_video_frame_read read).line_size 1 p = (read o1 s1).line_size 0 p)
          ∧ (inp.finish_video_frame_read read).presentation_time
              = (read o0 s0).presentation_time
          ∧ (inp.finish_video_frame_read read).width = inp.vframe.width
          ∧ (inp.finish_video_frame_read read).height = inp.vframe.height
          ∧ (inp.finish_video_frame_read read).raw_width = inp.vframe.raw_width
          ∧ (inp.finish_video_frame_read read).raw_height = inp.vframe.raw_height
          ∧ (inp.finish_video_frame_read read).aspect_ratio = inp.vframe.aspect_ratio
          ∧ (inp.finish_video_frame_read read).layout = inp.vframe.layout
          ∧ (inp.finish_video_frame_read read).color_space = inp.vframe.color_space
          ∧ (inp.finish_video_frame_read read).value_range = inp.vframe.value_range
          ∧ (inp.finish_video_frame_read read).chroma_location = inp.vframe.chroma_location
          ∧ (inp.finish_video_frame_read read).stereo_layout = inp.vframe.stereo_layout
          ∧ (inp.finish_video_frame_read read).stereo_layout_swap
              = inp.vframe.stereo_layout_swap)) := by
  unfold media_input.finish_video_frame_read
  rw [if_pos hsep, h0, h1]
  dsimp only
  constructor
  · intro hinv
    rcases hinv with h | h <;> rw [if_pos (by simp [h])]
  · intro hv0 hv1
    rw [if_neg (by simp [hv0, hv1])]
    exact ⟨fun p => ⟨rfl, rfl, rfl, rfl⟩, rfl, rfl, rfl, rfl, rfl, rfl, rfl, rfl, rfl,
      rfl, rfl, rfl⟩

/-- Instantiation of the paired-read statement: source 1 exhausted
(invalid sub-read) while source 0 yields a valid frame — the combined
result is the invalid default frame, never a half-filled one. -/
theorem finish_video_frame_read_separate_witness :
    inp_c4.finish_video_frame_read read_c4 = default_video_frame :=
  (finish_video_frame_read_separate_spec inp_c4 read_c4 0 0 1 0 rfl rfl rfl).1 (Or.inr rfl)

/-! ## Layout support (claims C5 and C10) -/

/-- C5.  `stereo_layout_is_supported` is false when there is no video
stream; otherwise it is false exactly when the layout is
left_right/left_right_half and the active stream's raw width is odd, or
top_bottom/top_bottom_half/even_odd_rows and its raw height is odd, or
separate while the stereo pair is unsupported; every other layout is
supported. -/
theorem stereo_layout_is_supported_spec (inp : media_input) (layout : stereo_layout_t)
    (sw : Bool) :
    (inp.video_streams = 0 → inp.stereo_layout_is_supported layout sw = false)
    ∧ (∀ o s : Nat,
        inp.get_video_stream inp.active_video_stream.toNat = some (o, s) →
        0 < inp.video_streams →
        (inp.stereo_layout_is_supported layout sw = false ↔
          (((layout = stereo_layout_t.left_right ∨ layout = stereo_layout_t.left_right_half)
              ∧ ((inp.media_objects.getD o default_media_object).video_frame_template s).raw_width % 2 ≠ 0)
            ∨ ((layout = stereo_layout_t.top_bottom ∨ layout = stereo_layout_t.top_bottom_half
                  ∨ layout = stereo_layout_t.even_odd_rows)
              ∧ ((inp.media_objects.getD o default_media_object).video_frame_template s).raw_height % 2 ≠ 0)
            ∨ (layout = stereo_layout_t.separate
              ∧ inp.supports_stereo_layout_separate = false)))) := by
  unfold media_input.stereo_layout_is_supported
  constructor
  · intro h0
    rw [if_pos (by omega)]
  · intro o s hres hpos
    rw [if_neg (by omega), hres]
    dsimp only
    simp only [Bool.not_eq_false', decide_eq_true_eq]
    tauto

/-- Instantiation of the layout-support characterisation: a fresh input
with no video stream supports no layout, while on a source whose active
stream has raw size 4x3, top_bottom is rejected (odd height) and
left_right is accepted (even width). -/
theorem stereo_layout_is_supported_witness :
    media_input.init.stereo_layout_is_supported stereo_layout_t.left_right false = false
      ∧ inp_c5.stereo_layout_is_supported stereo_layout_t.top_bottom false = false
      ∧ inp_c5.stereo_layout_is_supported stereo_layout_t.left_right true = true := by
  refine ⟨(stereo_layout_is_supported_spec media_input.init stereo_layout_t.left_right
    false).1 (by decide), ?_, ?_⟩
  · exact ((stereo_layout_is_supported_spec inp_c5 stereo_layout_t.top_bottom false).2 0 0
      rfl (by decide)).mpr (Or.inr (Or.inl ⟨Or.inl rfl, by decide⟩))
  · have h := (stereo_layout_is_supported_spec inp_c5 stereo_layout_t.left_right true).2 0 0
      rfl (by decide)
    have hne : ¬ inp_c5.stereo_layout_is_supported stereo_layout_t.left_right true = false := by
      intro hfalse
      rcases h.mp hfalse with ⟨-, hw⟩ | ⟨hl, -⟩ | ⟨hl, -⟩
      · exact hw (by decide)
      · rcases hl with h1 | h1 | h1 <;> exact absurd h1 (by decide)
      · exact absurd hl (by decide)
    exact eq_true_of_ne_false hne

/-- C10.  The result of `stereo_layout_is_supported` does not depend on the
swap argument in any state (the parameter is unnamed and unused in the
source). -/
theorem stereo_layout_swap_irrelevant (inp : media_input) (layout : stereo_layout_t)
    (sw1 sw2 : Bool) :
    inp.stereo_layout_is_supported layout sw1 = inp.stereo_layout_is_supported layout sw2 := rfl

/-! ## Selection in separate layout (claim C6) -/

theorem list_set_true_of_all_true (l : List Bool) (h : ∀ b ∈ l, b = true) (j : Nat) :
    l.set j true = l := by
  induction l generalizing j with
  | nil => rfl
  | cons a t ih =>
    cases j with
    | zero =>
      simp only [List.set]
      rw [h a (List.mem_cons_self _ _)]
    | succ j =>
      simp only [List.set]
      rw [ih (fun x hx => h x (List.mem_cons_of_mem _ hx)) j]

theorem foldl_set_true_of_all_true (idxs : List Nat) (l : List Bool)
    (h : ∀ b ∈ l, b = true) :
    idxs.foldl (fun l j => l.set j true) l = l := by
  induction idxs with
  | nil => rfl
  | cons j t ih =>
    rw [List.foldl_cons, list_set_true_of_all_true l h j]
    exact ih

theorem map_eq_self_of {α : Type} (l : List α) (f : α → α) (h : ∀ a ∈ l, f a = a) :
    l.map f = l := by
  induction l with
  | nil => rfl
  | cons a t ih =>
    rw [List.map_cons, h a (List.mem_cons_self _ _),
      ih (fun x hx => h x (List.mem_cons_of_mem _ hx))]

/-- C6.  While the current layout is `separate`, `select_video_stream`
leaves the set of active underlying video streams unchanged (both streams
of the pair stay active) and its result does not depend on the index
argument. -/
theorem select_video_stream_separate_noop (inp : media_input)
    (hsep : inp.vframe.stereo_layout = stereo_layout_t.separate)
    (hact : ∀ m ∈ inp.media_objects, ∀ b ∈ m.video_active, b = true)
    (k1 k2 : Nat) (hk1 : k1 < inp.video_streams) (hk2 : k2 < inp.video_streams) :
    inp.select_video_stream k1 = inp
      ∧ inp.select_video_stream k1 = inp.select_video_stream k2 := by
  have hbranch : ∀ k : Nat, inp.select_video_stream k
      = { inp with media_objects := inp.media_objects.map (fun m =>
          { m with video_active :=
              (List.range m.video_streams).foldl (fun l j => l.set j true) m.video_active }) } := by
    intro k
    unfold media_input.select_video_stream
    rw [if_pos hsep]
  have hid : inp.media_objects.map (fun m =>
      { m with video_active :=
          (List.range m.video_streams).foldl (fun l j => l.set j true) m.video_active })
      = inp.media_objects := by
    apply map_eq_self_of
    intro m hm
    rw [foldl_set_true_of_all_true _ _ (hact m hm)]
  constructor
  · rw [hbranch k1, hid]
  · rw [hbranch k1, hbranch k2]

/-- Instantiation of the separate-selection statement: selecting index 0
and index 1 both leave the doubly-active two-source input unchanged. -/
theorem select_video_stream_separate_noop_witness :
    inp_c6.select_video_stream 0 = inp_c6
      ∧ inp_c6.select_video_stream 0 = inp_c6.select_video_stream 1 :=
  select_video_stream_separate_noop inp_c6 rfl (by decide) 0 1 (by decide) (by decide)

/-! ## Lifecycle (claim C7) -/

/-- C7.  `close` resets the attributes to their pre-open sentinel state —
duration -1, active stream indices -1, initial skip 0, empty id, empty tag
and stream-name tables, no sources, default format templates — a second
`close` on an already-closed instance is a no-op, and after 'close' the
duration reads -1 and the tag and flattened stream counts are 0. -/
theorem close_resets (inp : media_input) :
    inp.close.duration = -1
    ∧ inp.close.active_video_stream = -1
    ∧ inp.close.active_audio_stream = -1
    ∧ inp.close.initial_skip = 0
    ∧ inp.close.id = ""
    ∧ inp.close.tag_names = []
    ∧ inp.close.tag_values = []
    ∧ inp.close.video_stream_names = []
    ∧ inp.close.audio_stream_names = []
    ∧ inp.close.media_objects = []
    ∧ inp.close.vframe = default_video_frame
    ∧ inp.close.ablob = default_audio_blob
    ∧ inp.close.close = inp.close
    ∧ inp.close.tags = 0
    ∧ inp.close.video_streams = 0
    ∧ inp.close.audio_streams = 0 :=
  ⟨rfl, rfl, rfl, rfl, rfl, rfl, rfl, rfl, rfl, rfl, rfl, rfl, rfl, rfl, rfl, rfl⟩

/-! ## Failure of open (claim C8) -/

theorem resize_objects_length (objs : List media_object) (n : Nat) :
    (resize_objects objs n).length = n := by
  unfold resize_objects
  rw [List.length_append, List.length_take, List.length_replicate]
  omega

theorem open_sources_error_length (world : String → Option media_object) :
    ∀ (us : List String) (ps v : List media_object),
      ps.length = us.length → open_sources world us ps = Except.error v →
      v.length = us.length := by
  intro us
  induction us with
  | nil =>
    intro ps v hl h
    simp [open_sources] at h
  | cons u ut ih =>
    intro ps v hl h
    unfold open_sources at h
    cases hw : world u with
    | none =>
      rw [hw] at h
      injection h with h
      rw [← h, hl]
    | some m =>
      rw [hw] at h
      cases hrec : open_sources world ut ps.tail with
      | ok rest => rw [hrec] at h; simp at h
      | error rest =>
        rw [hrec] at h
        injection h with h
        have htail : ps.tail.length = ut.length := by
          rw [List.length_tail, hl]
          rfl
        have hr := ih ps.tail rest htail hrec
        rw [← h, List.length_cons, hr, List.length_cons]

/-- C8 refutation: opening `["a", "x"]` in `world_c8` fails on source "x",
yet the instance is left with a two-element source vector that retains the
already-opened source "a" (one video stream) — not the pre-open state. -/
theorem open_failure_counterexample :
    media_input.init.openImpl ["a", "x"] world_c8 = Except.error failed_c8
    ∧ failed_c8.media_objects ≠ []
    ∧ failed_c8.video_streams = 1
    ∧ failed_c8 ≠ media_input.init :=
  ⟨rfl, by decide, rfl, by decide⟩

/-- C8 (amended).  When any source fails to open, the whole open fails and
none of the derived state is populated — id, tags, stream names, active
selections, initial skip, duration, format templates and the stereo-pair
flag keep their pre-open values — but the media-object vector is left
resized to the url count and retains the sources opened before the
failure; a subsequent `close` restores the pristine state. -/
theorem open_failure_state (inp : media_input) (urls : List String)
    (world : String → Option media_object) (s : media_input)
    (h : inp.openImpl urls world = Except.error s) :
    s.id = inp.id ∧ s.tag_names = inp.tag_names ∧ s.tag_values = inp.tag_values
    ∧ s.video_stream_names = inp.video_stream_names
    ∧ s.audio_stream_names = inp.audio_stream_names
    ∧ s.active_video_stream = inp.active_video_stream
    ∧ s.active_audio_stream = inp.active_audio_stream
    ∧ s.initial_skip = inp.initial_skip
    ∧ s.duration = inp.duration
    ∧ s.vframe = inp.vframe
    ∧ s.ablob = inp.ablob
    ∧ s.supports_stereo_layout_separate = inp.supports_stereo_layout_separate
    ∧ s.media_objects.length = urls.length
    ∧ s.close = inp.close := by
  unfold media_input.openImpl at h
  cases heq : open_sources world urls (resize_objects inp.media_objects urls.length) with
  | ok objs => rw [heq] at h; simp at h
  | error v =>
    rw [heq] at h
    injection h with h
    subst h
    refine ⟨rfl, rfl, rfl, rfl, rfl, rfl, rfl, rfl, rfl, rfl, rfl, rfl, ?_, rfl⟩
    exact open_sources_error_length world urls _ v (resize_objects_length _ _) heq

/-- Instantiation of the amended failed-open statement at the concrete
failing input. -/
theorem open_failure_state_witness :
    failed_c8.id = media_input.init.id
    ∧ failed_c8.tag_names = media_input.init.tag_names
    ∧ failed_c8.tag_values = media_input.init.tag_values
    ∧ failed_c8.video_stream_names = media_input.init.video_stream_names
    ∧ failed_c8.audio_stream_names = media_input.init.audio_stream_names
    ∧ failed_c8.active_video_stream = media_input.init.active_video_stream
    ∧ failed_c8.active_audio_stream = media_input.init.active_audio_stream
    ∧ failed_c8.initial_skip = media_input.init.initial_skip
    ∧ failed_c8.duration = media_input.init.duration
    ∧ failed_c8.vframe = media_input.init.vframe
    ∧ failed_c8.ablob = media_input.init.ablob
    ∧ failed_c8.supports_stereo_layout_separate
        = media_input.init.supports_stereo_layout_separate
    ∧ failed_c8.media_objects.length = (["a", "x"] : List String).length
    ∧ failed_c8.close = media_input.init.close :=
  open_failure_state media_input.init ["a", "x"] world_c8 failed_c8 rfl

/-! ## Frame rate accessors (claim C9) -/

/-- C9.  The frame-rate accessors resolve the active global index to
`(o, s)` but then index `_media_objects[s]` with the local stream index
instead of `_media_objects[o]` (the computed `o` is left unused in the
source): with two single-stream sources of rates 30/1 and 24/1 and active
global stream 1 — which resolves to source 1, local stream 0 — the code
reads source 0's numerator 30 while the active stream's source holds 24. -/
theorem frame_rate_wrong_object :
    inp_c9.get_video_stream inp_c9.active_video_stream.toNat = some (1, 0)
    ∧ inp_c9.video_frame_rate_numerator_impl = 30
    ∧ (inp_c9.media_objects.getD 1 default_media_object).video_frame_rate_numerator 0 = 24
    ∧ inp_c9.video_frame_rate_denominator_impl
        = (inp_c9.media_objects.getD 0 default_media_object).video_frame_rate_denominator 0 :=
  ⟨rfl, rfl, rfl, rfl⟩
